import Mathlib

/-!
Verification development for the fabric-dbt-runner repository.

The first part embeds `src/dbtrunner.py` (the streaming runner class
`DbtRunner`): its mutable object state becomes an explicit `RunnerState`
record threaded through the methods `log`, `flush`, `classify_failure`,
`run` and `finish`.  External effects are modelled by oracles gathered in
`Env`: `tsFn` gives the string produced by
`datetime.now().strftime("%Y-%m-%d %H:%M:%S")` at the i-th clock read,
`putOk` tells whether the i-th `notebookutils.fs.put` call succeeds (the
ambient notebook runtime write primitive), and `durFn` gives the string
rendered by the `{duration:.1f}` format of the wall-clock duration.  The
model additionally records, as observer fields, the content last written
to the remote log path (`remote`), the number of successful writes
(`remoteWrites`) and the number of attempted writes (`putAttempts`).
-/

namespace Streaming

/-- Substring containment, the meaning of the Python `in` operator on
strings: `containsSub s pat` holds when `pat` occurs contiguously in `s`
(case sensitive). -/
def containsSub (s pat : String) : Bool :=
  decide (pat.data <:+: s.data)

/-- Concatenation of a list of strings, the meaning of `"".join(...)`. -/
def joinStr : List String → String
  | [] => ""
  | s :: rest => s ++ joinStr rest

/-- The failure categories returned by `DbtRunner.classify_failure`. -/
inductive FailureCategory where
  | COMPILATION
  | DATABASE
  | RUNTIME
  | TEST_FAILURE
deriving DecidableEq

/-- The string Python prints for a failure category. -/
def FailureCategory.toStr : FailureCategory → String
  | .COMPILATION => "COMPILATION"
  | .DATABASE => "DATABASE"
  | .RUNTIME => "RUNTIME"
  | .TEST_FAILURE => "TEST_FAILURE"

/-- Oracles for the external world: the clock, the remote write outcome,
and the rendered duration string. -/
structure Env where
  tsFn : Nat → String
  putOk : Nat → Bool
  durFn : Nat → Nat → String

/-- The state of one `DbtRunner` object (`src/dbtrunner.py`), plus the
observer fields `remote`, `remoteWrites`, `putAttempts` for the external
sink and the clock counter `time`. -/
structure RunnerState where
  lakehouse_log_path : String
  flush_every : Nat
  buffer : List String
  persisted_log : String
  success : Bool
  failure_type : Option FailureCategory
  start_time : Option Nat
  time : Nat
  remote : Option String
  remoteWrites : Nat
  putAttempts : Nat
deriving DecidableEq

/-- `DbtRunner.__init__`: a fresh runner. -/
def mkRunner (lakehouse_log_path : String) (flush_every : Nat) : RunnerState :=
  { lakehouse_log_path := lakehouse_log_path
    flush_every := flush_every
    buffer := []
    persisted_log := ""
    success := true
    failure_type := none
    start_time := none
    time := 0
    remote := none
    remoteWrites := 0
    putAttempts := 0 }

/-- `DbtRunner.flush`: no-op on an empty buffer; otherwise concatenate the
buffer, clear it, append the chunk to `persisted_log`, then attempt the
remote overwrite-write inside `try`, so a failing write (putOk false)
leaves the already-updated local state and only skips the remote update. -/
def flush (env : Env) (st : RunnerState) : RunnerState :=
  if st.buffer.isEmpty then st
  else
    let chunk := joinStr st.buffer
    let st1 := { st with buffer := ([] : List String),
                         persisted_log := st.persisted_log ++ chunk }
    if env.putOk st1.putAttempts then
      { st1 with remote := some st1.persisted_log,
                 remoteWrites := st1.remoteWrites + 1,
                 putAttempts := st1.putAttempts + 1 }
    else
      { st1 with putAttempts := st1.putAttempts + 1 }

/-- The formatted text `f"[{timestamp}] [{level}] {message}"` of
`DbtRunner.log`. -/
def fmtLine (timestamp level message : String) : String :=
  "[" ++ timestamp ++ "] [" ++ level ++ "] " ++ message

/-- `DbtRunner.log`: format, append `formatted + end` to the buffer, and
auto-flush once the buffer length reaches `flush_every`. -/
def log (env : Env) (st : RunnerState) (message level endStr : String) : RunnerState :=
  let timestamp := env.tsFn st.time
  let formatted := fmtLine timestamp level message
  let st1 := { st with time := st.time + 1,
                       buffer := st.buffer ++ [formatted ++ endStr] }
  if st1.flush_every ≤ st1.buffer.length then flush env st1 else st1

/-- `DbtRunner.classify_failure`: ordered, case-sensitive, first-match-wins
substring tests. -/
def classify_failure (line : String) : Option FailureCategory :=
  if containsSub line "Compilation Error" then some .COMPILATION
  else if containsSub line "Database Error" then some .DATABASE
  else if containsSub line "Runtime Error" then some .RUNTIME
  else if containsSub line "FAIL" then some .TEST_FAILURE
  else none

/-- One iteration of the streaming loop in `DbtRunner.run`: log the line
with `end=""`, then classify it only while no failure type is recorded. -/
def feedLine (env : Env) (st : RunnerState) (line : String) : RunnerState :=
  let st1 := log env st line "INFO" ""
  match st1.failure_type with
  | some _ => st1
  | none =>
    match classify_failure line with
    | some failure => { st1 with failure_type := some failure }
    | none => st1

/-- The whole `for line in process.stdout` loop of `DbtRunner.run`. -/
def feedLines (env : Env) (st : RunnerState) (lines : List String) : RunnerState :=
  lines.foldl (feedLine env) st

/-- The `"=" * 40` separator of `DbtRunner.finish`. -/
def sep40 : String :=
  String.mk (List.replicate 40 '=')

/-- `DbtRunner.finish`: the summary block followed by the final flush. -/
def finish (env : Env) (st : RunnerState) : RunnerState :=
  let duration := env.durFn (st.start_time.getD 0) st.time
  let st1 := log env st "" "INFO" "\n"
  let st2 := log env st1 sep40 "INFO" "\n"
  let st3 := log env st2 "DBT Run Finished" "INFO" "\n"
  let st4 := log env st3 ("Success: " ++ (if st3.success then "True" else "False")) "INFO" "\n"
  let st5 := log env st4 ("Duration: " ++ duration ++ "s") "INFO" "\n"
  let st6 :=
    match st5.failure_type with
    | some failure => log env st5 ("Failure type: " ++ failure.toStr) "ERROR" "\n"
    | none => st5
  let st7 := log env st6 sep40 "INFO" "\n"
  flush env st7

/-- `DbtRunner.run`: record the start time, log the banner, stream the
output lines, record failure on a nonzero exit code, flush, run `finish`,
and finally raise `RuntimeError("dbt run failed")` when unsuccessful.  The
returned Boolean is true exactly when that error is raised; the returned
state is the object state at the moment of the raise (or of the normal
return). -/
def run (env : Env) (st : RunnerState) (lines : List String) (return_code : Int) :
    RunnerState × Bool :=
  let st0 := { st with start_time := some st.time, time := st.time + 1 }
  let st1 := log env st0 "Starting dbt run" "INFO" "\n"
  let st2 := feedLines env st1 lines
  let st3 :=
    if return_code ≠ 0 then
      let stf := { st2 with success := false }
      log env stf ("dbt exited with return code " ++ toString return_code) "ERROR" "\n"
    else st2
  let st4 := flush env st3
  let st5 := finish env st4
  (st5, !st5.success)

/-- The cumulative log content of a session: everything already persisted
followed by everything still buffered.  This is the ghost quantity that
`log` grows and `flush` merely repartitions. -/
def fullLog (st : RunnerState) : String :=
  st.persisted_log ++ joinStr st.buffer

/-- An externally observable operation on the log sink: a `log` call or an
explicit `flush` call. -/
inductive SinkOp where
  | logOp (message level endStr : String)
  | flushOp
deriving DecidableEq

/-- Run one sink operation. -/
def applyOp (env : Env) (st : RunnerState) : SinkOp → RunnerState
  | .logOp m l e => log env st m l e
  | .flushOp => flush env st

/-- Run a sequence of sink operations in order. -/
def applyOps (env : Env) (st : RunnerState) (ops : List SinkOp) : RunnerState :=
  ops.foldl (applyOp env) st

/-- The formatted entries that a sequence of sink operations appends, when
started at clock value `t`: each `log` call contributes
`f"[{timestamp}] [{level}] {message}{end}"` and advances the clock, a
`flush` call contributes nothing. -/
def entriesOf (env : Env) : Nat → List SinkOp → List String
  | _, [] => []
  | t, .logOp m l e :: rest => (fmtLine (env.tsFn t) l m ++ e) :: entriesOf env (t + 1) rest
  | t, .flushOp :: rest => entriesOf env t rest

/-- A list of `log` calls, given as (message, level, end) triples. -/
def logOps (msgs : List (String × String × String)) : List SinkOp :=
  msgs.map (fun m => SinkOp.logOp m.1 m.2.1 m.2.2)

/-- Number of `log` calls in a sequence of sink operations. -/
def numLogs : List SinkOp → Nat
  | [] => 0
  | .logOp _ _ _ :: rest => numLogs rest + 1
  | .flushOp :: rest => numLogs rest

/-- Equality of everything the Python object ever reads of its own state
(all fields of the `DbtRunner` object plus the attempt counter), i.e. the
whole state except the two fields that only record what reached the
remote sink (`remote`, `remoteWrites`). -/
def obsEq (st1 st2 : RunnerState) : Prop :=
  st1.lakehouse_log_path = st2.lakehouse_log_path ∧
  st1.flush_every = st2.flush_every ∧
  st1.buffer = st2.buffer ∧
  st1.persisted_log = st2.persisted_log ∧
  st1.success = st2.success ∧
  st1.failure_type = st2.failure_type ∧
  st1.start_time = st2.start_time ∧
  st1.time = st2.time ∧
  st1.putAttempts = st2.putAttempts

end Streaming

/-!
The second part embeds the `fabric_dbt_runner` package:
`src/fabric_dbt_runner/variable_library.py`,
`src/fabric_dbt_runner/config.py` and the command-line construction of
`src/fabric_dbt_runner/runner.py`.  Python dictionaries are modelled as
association lists in insertion order, with assignment overwriting in
place (`dictInsert`) and lookup returning the stored value (`dictGet`).
`os.environ` is passed in explicitly as an association list;
`json.loads` / `json.dumps` are oracles (`parseJson` returning `none` on
`json.JSONDecodeError`, and an abstract `dumps`).
-/

namespace Fdr

/-- Python `str.startswith`, as a prefix test on the character list. -/
def pyStartsWith (s pre : String) : Bool :=
  pre.data.isPrefixOf s.data

/-- Python slicing `s[n:]`. -/
def pyDrop (s : String) (n : Nat) : String :=
  String.mk (s.data.drop n)

/-- Python `str.lower` (ASCII, character by character). -/
def pyLower (s : String) : String :=
  String.mk (s.data.map Char.toLower)

/-- Python `str.upper` (ASCII, character by character). -/
def pyUpper (s : String) : String :=
  String.mk (s.data.map Char.toUpper)

/-- Python dict assignment `d[k] = v`: overwrite in place when the key is
present (insertion order is kept), otherwise append. -/
def dictInsert (d : List (String × String)) (k v : String) : List (String × String) :=
  if d.any (fun p => p.1 == k) then
    d.map (fun p => if p.1 == k then (k, v) else p)
  else d ++ [(k, v)]

/-- Python dict lookup. -/
def dictGet (d : List (String × String)) (k : String) : Option String :=
  (d.find? (fun p => p.1 == k)).map (fun p => p.2)

/-- `VariableLibraryManager.load_from_fabric`: collect the environment
entries whose key starts with `f"{self.library_name.upper()}_"`, keyed by
`key[len(prefix):].lower()`. -/
def load_from_fabric (library_name : String) (environ : List (String × String)) :
    List (String × String) :=
  let pfx := pyUpper library_name ++ "_"
  environ.foldl
    (fun varTable kv =>
      if pyStartsWith kv.1 pfx then
        dictInsert varTable (pyLower (pyDrop kv.1 pfx.length)) kv.2
      else varTable)
    []

/-- The configuration dictionary built by
`VariableLibraryManager.load_dbt_config`; each key is present only when
the corresponding variable was found.  `J` is the type of parsed JSON
values. -/
structure DbtConfigDict (J : Type) where
  project_dir : Option String
  profiles_dir : Option String
  target : Option String
  vars : Option J
deriving DecidableEq

/-- `VariableLibraryManager.load_dbt_config`: load the variables, then copy
`project_dir`, `profiles_dir`, `target` verbatim when present, and parse
the `vars` entry with `json.loads`, falling back to the empty mapping
`emptyObj` on `json.JSONDecodeError`. -/
def load_dbt_config (J : Type) (emptyObj : J) (parseJson : String → Option J)
    (library_name : String) (environ : List (String × String)) : DbtConfigDict J :=
  let varTable := load_from_fabric library_name environ
  let c0 : DbtConfigDict J := ⟨none, none, none, none⟩
  let c1 :=
    match dictGet varTable "project_dir" with
    | some v => { c0 with project_dir := some v }
    | none => c0
  let c2 :=
    match dictGet varTable "profiles_dir" with
    | some v => { c1 with profiles_dir := some v }
    | none => c1
  let c3 :=
    match dictGet varTable "target" with
    | some v => { c2 with target := some v }
    | none => c2
  match dictGet varTable "vars" with
  | some s =>
    match parseJson s with
    | some j => { c3 with vars := some j }
    | none => { c3 with vars := some emptyObj }
  | none => c3

/-- The ambient process environment read by `DbtConfig.__init__`:
`os.getcwd()` and the user's home directory (so that
`os.path.expanduser("~/.dbt")` is `home ++ "/.dbt"`). -/
structure SysEnv where
  getcwd : String
  home : String

/-- Python `a or b` on an optional string: `None` and `""` are falsy. -/
def pyOr (v : Option String) (d : String) : String :=
  match v with
  | some s => if s == "" then d else s
  | none => d

/-- The `DbtConfig` object of `src/fabric_dbt_runner/config.py`.  The
values of the `vars` mapping are modelled as strings. -/
structure DbtConfig where
  project_dir : String
  profiles_dir : String
  target : String
  vars : List (String × String)
deriving DecidableEq

/-- `DbtConfig.__init__` with its defaulting:
`project_dir or os.getcwd()`, `profiles_dir or os.path.expanduser("~/.dbt")`,
`target or "dev"`, `vars or {}`. -/
def DbtConfig.init (sys : SysEnv) (project_dir profiles_dir target : Option String)
    (vars : Option (List (String × String))) : DbtConfig :=
  { project_dir := pyOr project_dir sys.getcwd
    profiles_dir := pyOr profiles_dir (sys.home ++ "/.dbt")
    target := pyOr target "dev"
    vars := vars.getD [] }

/-- `DbtConfig.get_dbt_args`: each field is appended with its flag when
truthy (non-empty); the `vars` mapping is JSON-encoded by the `dumps`
oracle. -/
def DbtConfig.get_dbt_args (dumps : List (String × String) → String)
    (c : DbtConfig) : List String :=
  let args : List String := []
  let args := if c.project_dir == "" then args else args ++ ["--project-dir", c.project_dir]
  let args := if c.profiles_dir == "" then args else args ++ ["--profiles-dir", c.profiles_dir]
  let args := if c.target == "" then args else args ++ ["--target", c.target]
  if c.vars.isEmpty then args else args ++ ["--vars", dumps c.vars]

/-- A Python value passed as a free-form keyword argument in
`src/fabric_dbt_runner/runner.py`. -/
inductive PyVal where
  | bool (b : Bool)
  | str (s : String)
  | int (n : Int)
deriving DecidableEq

/-- Python `str(value)`. -/
def pyStr : PyVal → String
  | .bool true => "True"
  | .bool false => "False"
  | .str s => s
  | .int n => toString n

/-- `f"--{key.replace('_', '-')}"`. -/
def dashFlag (key : String) : String :=
  "--" ++ key.replace "_" "-"

/-- The keyword-argument loop shared verbatim by every subcommand of
`runner.py`: a boolean `True` appends the bare flag, a boolean `False`
appends nothing, any non-boolean appends the flag and `str(value)`. -/
def addKwargs (cmd : List String) (kwargs : List (String × PyVal)) : List String :=
  kwargs.foldl
    (fun cmd kv =>
      match kv.2 with
      | .bool true => cmd ++ [dashFlag kv.1]
      | .bool false => cmd
      | v => cmd ++ [dashFlag kv.1, pyStr v])
    cmd

/-- `if models: for model in models: cmd.extend(["--models", model])`
(the loop over an empty list appends nothing, matching the falsiness of
an empty Python list). -/
def addModels (cmd : List String) (models : Option (List String)) : List String :=
  match models with
  | some ms => ms.foldl (fun c model => c ++ ["--models", model]) cmd
  | none => cmd

/-- `if v: cmd.extend([flag, v])` for an optional string argument
(`None` and `""` are falsy). -/
def addOptStr (cmd : List String) (flag : String) (v : Option String) : List String :=
  match v with
  | some s => if s == "" then cmd else cmd ++ [flag, s]
  | none => cmd

/-- The command line built by `DbtRunner.run`. -/
def runArgs (dumps : List (String × String) → String) (config : DbtConfig)
    (models : Option (List String)) (select exclude : Option String)
    (full_refresh : Bool) (kwargs : List (String × PyVal)) : List String :=
  let cmd := ["dbt", "run"] ++ config.get_dbt_args dumps
  let cmd := addModels cmd models
  let cmd := addOptStr cmd "--select" select
  let cmd := addOptStr cmd "--exclude" exclude
  let cmd := if full_refresh then cmd ++ ["--full-refresh"] else cmd
  addKwargs cmd kwargs

/-- The command line built by `DbtRunner.test`. -/
def testArgs (dumps : List (String × String) → String) (config : DbtConfig)
    (models : Option (List String)) (select : Option String)
    (kwargs : List (String × PyVal)) : List String :=
  let cmd := ["dbt", "test"] ++ config.get_dbt_args dumps
  let cmd := addModels cmd models
  let cmd := addOptStr cmd "--select" select
  addKwargs cmd kwargs

/-- The command line built by `DbtRunner.build`. -/
def buildArgs (dumps : List (String × String) → String) (config : DbtConfig)
    (select exclude : Option String) (full_refresh : Bool)
    (kwargs : List (String × PyVal)) : List String :=
  let cmd := ["dbt", "build"] ++ config.get_dbt_args dumps
  let cmd := addOptStr cmd "--select" select
  let cmd := addOptStr cmd "--exclude" exclude
  let cmd := if full_refresh then cmd ++ ["--full-refresh"] else cmd
  addKwargs cmd kwargs

/-- The command line built by `DbtRunner.compile`. -/
def compileArgs (dumps : List (String × String) → String) (config : DbtConfig)
    (models : Option (List String)) (select : Option String)
    (kwargs : List (String × PyVal)) : List String :=
  let cmd := ["dbt", "compile"] ++ config.get_dbt_args dumps
  let cmd := addModels cmd models
  let cmd := addOptStr cmd "--select" select
  addKwargs cmd kwargs

/-- The command line built by `DbtRunner.seed`. -/
def seedArgs (dumps : List (String × String) → String) (config : DbtConfig)
    (select : Option String) (full_refresh : Bool)
    (kwargs : List (String × PyVal)) : List String :=
  let cmd := ["dbt", "seed"] ++ config.get_dbt_args dumps
  let cmd := addOptStr cmd "--select" select
  let cmd := if full_refresh then cmd ++ ["--full-refresh"] else cmd
  addKwargs cmd kwargs

/-- The command line built by `DbtRunner.snapshot`. -/
def snapshotArgs (dumps : List (String × String) → String) (config : DbtConfig)
    (select : Option String) (kwargs : List (String × PyVal)) : List String :=
  let cmd := ["dbt", "snapshot"] ++ config.get_dbt_args dumps
  let cmd := addOptStr cmd "--select" select
  addKwargs cmd kwargs

end Fdr

/-- A concrete environment used to instantiate universally quantified
theorems at explicit inputs. -/
def wEnv : Streaming.Env :=
  { tsFn := fun _ => "2026-10-12 00:00:00"
    putOk := fun _ => true
    durFn := fun _ _ => "0.1" }

/-- Like `wEnv` but with a remote sink whose writes always fail. -/
def wEnvFail : Streaming.Env :=
  { tsFn := fun _ => "2026-10-12 00:00:00"
    putOk := fun _ => false
    durFn := fun _ _ => "0.1" }

/-- A concrete process environment for instantiations. -/
def wEnviron : List (String × String) :=
  [("DBT_CONFIG_TARGET", "prod"), ("HOME", "/root"), ("DBT_CONFIG_VARS", "not json")]

/-!
Helper lemmas about the streaming runner.
-/

namespace Streaming

theorem joinStr_append (l1 l2 : List String) :
    joinStr (l1 ++ l2) = joinStr l1 ++ joinStr l2 := by
  induction l1 with
  | nil => simp [joinStr, String.empty_append]
  | cons s rest ih => simp [joinStr, ih, String.append_assoc]

theorem flush_buffer (env : Env) (st : RunnerState) : (flush env st).buffer = [] := by
  unfold flush
  split
  · next h => simpa using h
  · dsimp only
    split <;> rfl

theorem flush_persisted (env : Env) (st : RunnerState) :
    (flush env st).persisted_log = st.persisted_log ++ joinStr st.buffer := by
  unfold flush
  split
  · next h =>
    have hb : st.buffer = [] := by simpa using h
    simp [hb, joinStr, String.append_empty]
  · dsimp only
    split <;> rfl

theorem flush_success (env : Env) (st : RunnerState) :
    (flush env st).success = st.success := by
  unfold flush
  split
  · rfl
  · dsimp only
    split <;> rfl

theorem flush_failure_type (env : Env) (st : RunnerState) :
    (flush env st).failure_type = st.failure_type := by
  unfold flush
  split
  · rfl
  · dsimp only
    split <;> rfl

theorem flush_time (env : Env) (st : RunnerState) : (flush env st).time = st.time := by
  unfold flush
  split
  · rfl
  · dsimp only
    split <;> rfl

theorem flush_start_time (env : Env) (st : RunnerState) :
    (flush env st).start_time = st.start_time := by
  unfold flush
  split
  · rfl
  · dsimp only
    split <;> rfl

theorem flush_flush_every (env : Env) (st : RunnerState) :
    (flush env st).flush_every = st.flush_every := by
  unfold flush
  split
  · rfl
  · dsimp only
    split <;> rfl

theorem flush_path (env : Env) (st : RunnerState) :
    (flush env st).lakehouse_log_path = st.lakehouse_log_path := by
  unfold flush
  split
  · rfl
  · dsimp only
    split <;> rfl

theorem flush_fullLog (env : Env) (st : RunnerState) :
    fullLog (flush env st) = fullLog st := by
  simp [fullLog, flush_persisted, flush_buffer, joinStr, String.append_empty]

theorem flush_of_empty (env : Env) (st : RunnerState) (h : st.buffer = []) :
    flush env st = st := by
  unfold flush
  simp [h]

theorem log_success (env : Env) (st : RunnerState) (m l e : String) :
    (log env st m l e).success = st.success := by
  unfold log
  dsimp only
  split
  · simp [flush_success]
  · rfl

theorem log_failure_type (env : Env) (st : RunnerState) (m l e : String) :
    (log env st m l e).failure_type = st.failure_type := by
  unfold log
  dsimp only
  split
  · simp [flush_failure_type]
  · rfl

theorem log_time (env : Env) (st : RunnerState) (m l e : String) :
    (log env st m l e).time = st.time + 1 := by
  unfold log
  dsimp only
  split
  · simp [flush_time]
  · rfl

theorem log_start_time (env : Env) (st : RunnerState) (m l e : String) :
    (log env st m l e).start_time = st.start_time := by
  unfold log
  dsimp only
  split
  · simp [flush_start_time]
  · rfl

theorem log_flush_every (env : Env) (st : RunnerState) (m l e : String) :
    (log env st m l e).flush_every = st.flush_every := by
  unfold log
  dsimp only
  split
  · simp [flush_flush_every]
  · rfl

theorem log_fullLog (env : Env) (st : RunnerState) (m l e : String) :
    fullLog (log env st m l e) = fullLog st ++ (fmtLine (env.tsFn st.time) l m ++ e) := by
  unfold log
  dsimp only
  split
  · rw [flush_fullLog]
    simp [fullLog, joinStr_append, joinStr, String.append_assoc, String.append_empty]
  · simp [fullLog, joinStr_append, joinStr, String.append_assoc, String.append_empty]

theorem growth_trans {a b c : String} (h1 : ∃ s, b = a ++ s) (h2 : ∃ s, c = b ++ s) :
    ∃ s, c = a ++ s := by
  obtain ⟨s1, e1⟩ := h1
  obtain ⟨s2, e2⟩ := h2
  exact ⟨s1 ++ s2, by rw [e2, e1, String.append_assoc]⟩

theorem log_growth (env : Env) (st : RunnerState) (m l e : String) :
    ∃ s, fullLog (log env st m l e) = fullLog st ++ s :=
  ⟨_, log_fullLog env st m l e⟩

theorem flush_growth (env : Env) (st : RunnerState) :
    ∃ s, fullLog (flush env st) = fullLog st ++ s :=
  ⟨"", by rw [flush_fullLog, String.append_empty]⟩

theorem feedLine_success (env : Env) (st : RunnerState) (line : String) :
    (feedLine env st line).success = st.success := by
  unfold feedLine
  dsimp only
  split
  · simp [log_success]
  · split <;> simp [log_success]

theorem feedLine_fullLog (env : Env) (st : RunnerState) (line : String) :
    fullLog (feedLine env st line) =
      fullLog st ++ (fmtLine (env.tsFn st.time) "INFO" line ++ "") := by
  unfold feedLine
  dsimp only
  split
  · exact log_fullLog env st line "INFO" ""
  · split
    · rw [← log_fullLog env st line "INFO" ""]
      rfl
    · exact log_fullLog env st line "INFO" ""

theorem feedLines_success (env : Env) (lines : List String) :
    ∀ st : RunnerState, (feedLines env st lines).success = st.success := by
  induction lines with
  | nil => intro st; rfl
  | cons l ls ih =>
    intro st
    show (feedLines env (feedLine env st l) ls).success = st.success
    rw [ih, feedLine_success]

theorem feedLines_growth (env : Env) (lines : List String) :
    ∀ st : RunnerState, ∃ s, fullLog (feedLines env st lines) = fullLog st ++ s := by
  induction lines with
  | nil => intro st; exact ⟨"", (String.append_empty _).symm⟩
  | cons l ls ih =>
    intro st
    exact growth_trans ⟨_, feedLine_fullLog env st l⟩ (ih (feedLine env st l))

theorem containsSub_self (s : String) : containsSub s s = true := by
  simp [containsSub]

theorem containsSub_append_right (a b pat : String) (h : containsSub b pat = true) :
    containsSub (a ++ b) pat = true := by
  simp only [containsSub, decide_eq_true_eq] at h ⊢
  obtain ⟨u, v, huv⟩ := h
  exact ⟨a.data ++ u, v, by rw [String.data_append, ← huv]; simp [List.append_assoc]⟩

theorem containsSub_append_left (a b pat : String) (h : containsSub a pat = true) :
    containsSub (a ++ b) pat = true := by
  simp only [containsSub, decide_eq_true_eq] at h ⊢
  obtain ⟨u, v, huv⟩ := h
  exact ⟨u, v ++ b.data, by rw [String.data_append, ← huv]; simp [List.append_assoc]⟩

theorem contains_mono {a b pat : String} (h : ∃ s, b = a ++ s)
    (hc : containsSub a pat = true) : containsSub b pat = true := by
  obtain ⟨s, hs⟩ := h
  rw [hs]
  exact containsSub_append_left a s pat hc

theorem containsSub_entry (ts level msg endStr pat : String)
    (h : "] [" ++ level ++ "] " ++ msg ++ endStr = pat) :
    containsSub (fmtLine ts level msg ++ endStr) pat = true := by
  have hsplit : fmtLine ts level msg ++ endStr = ("[" ++ ts) ++ pat := by
    rw [← h]
    simp [fmtLine, String.append_assoc]
  rw [hsplit]
  exact containsSub_append_right _ _ _ (containsSub_self pat)

theorem finish_success (env : Env) (st : RunnerState) :
    (finish env st).success = st.success := by
  unfold finish
  dsimp only
  split <;> simp [flush_success, log_success]

theorem finish_failure_type (env : Env) (st : RunnerState) :
    (finish env st).failure_type = st.failure_type := by
  unfold finish
  dsimp only
  split <;> simp [flush_failure_type, log_failure_type]

theorem finish_buffer (env : Env) (st : RunnerState) :
    (finish env st).buffer = [] := by
  unfold finish
  dsimp only
  exact flush_buffer env _

theorem fullLog_of_nil (st : RunnerState) (h : st.buffer = []) :
    fullLog st = st.persisted_log := by
  simp [fullLog, h, joinStr, String.append_empty]

theorem finish_fullLog_parts (env : Env) (st : RunnerState) :
    ∃ a b, fullLog (finish env st) =
      fullLog st ++
        (a ++ ((fmtLine (env.tsFn (st.time + 2)) "INFO" "DBT Run Finished" ++ "\n") ++ b)) := by
  unfold finish
  dsimp only
  set st1 := log env st "" "INFO" "\n" with hst1
  set st2 := log env st1 sep40 "INFO" "\n" with hst2
  set st3 := log env st2 "DBT Run Finished" "INFO" "\n" with hst3
  set st4 := log env st3 ("Success: " ++ (if st3.success then "True" else "False")) "INFO" "\n"
    with hst4
  set st5 := log env st4 ("Duration: " ++ env.durFn (st.start_time.getD 0) st.time ++ "s")
    "INFO" "\n" with hst5
  have t1 : st1.time = st.time + 1 := by
    rw [hst1, log_time]
  have t2 : st2.time = st.time + 2 := by
    rw [hst2, log_time, t1]
  have h3 : fullLog st3 =
      fullLog st ++ ((fmtLine (env.tsFn st.time) "INFO" "" ++ "\n") ++
        (fmtLine (env.tsFn (st.time + 1)) "INFO" sep40 ++ "\n")) ++
        (fmtLine (env.tsFn (st.time + 2)) "INFO" "DBT Run Finished" ++ "\n") := by
    rw [hst3, log_fullLog, t2, hst2, log_fullLog, t1, hst1, log_fullLog]
    simp [String.append_assoc]
  have g4 : ∃ s, fullLog st4 = fullLog st3 ++ s := ⟨_, by rw [hst4, log_fullLog]⟩
  have g5 : ∃ s, fullLog st5 = fullLog st4 ++ s := ⟨_, by rw [hst5, log_fullLog]⟩
  have g6 : ∃ s, fullLog
      (match st5.failure_type with
        | some failure => log env st5 ("Failure type: " ++ failure.toStr) "ERROR" "\n"
        | none => st5) = fullLog st5 ++ s := by
    cases hft : st5.failure_type with
    | some failure =>
      simp only [hft]
      exact log_growth env st5 _ "ERROR" "\n"
    | none =>
      simp only [hft]
      exact ⟨"", (String.append_empty _).symm⟩
  have g7 : ∃ s, fullLog (log env
      (match st5.failure_type with
        | some failure => log env st5 ("Failure type: " ++ failure.toStr) "ERROR" "\n"
        | none => st5) sep40 "INFO" "\n") = fullLog
      (match st5.failure_type with
        | some failure => log env st5 ("Failure type: " ++ failure.toStr) "ERROR" "\n"
        | none => st5) ++ s :=
    log_growth env _ sep40 "INFO" "\n"
  have g8 : ∃ s, fullLog (flush env (log env
      (match st5.failure_type with
        | some failure => log env st5 ("Failure type: " ++ failure.toStr) "ERROR" "\n"
        | none => st5) sep40 "INFO" "\n")) = fullLog (log env
      (match st5.failure_type with
        | some failure => log env st5 ("Failure type: " ++ failure.toStr) "ERROR" "\n"
        | none => st5) sep40 "INFO" "\n") ++ s :=
    flush_growth env _
  obtain ⟨s, hs⟩ :=
    growth_trans g4 (growth_trans g5 (growth_trans g6 (growth_trans g7 g8)))
  refine ⟨(fmtLine (env.tsFn st.time) "INFO" "" ++ "\n") ++
      (fmtLine (env.tsFn (st.time + 1)) "INFO" sep40 ++ "\n"), s, ?_⟩
  rw [hs, h3]
  simp [String.append_assoc]

theorem finish_growth (env : Env) (st : RunnerState) :
    ∃ s, fullLog (finish env st) = fullLog st ++ s := by
  obtain ⟨a, b, h⟩ := finish_fullLog_parts env st
  exact ⟨_, h⟩

theorem feedLine_ft_some (env : Env) (st : RunnerState) (line : String)
    (f : FailureCategory) (h : st.failure_type = some f) :
    (feedLine env st line).failure_type = some f := by
  unfold feedLine
  dsimp only
  have hl : (log env st line "INFO" "").failure_type = some f := by
    rw [log_failure_type, h]
  split
  · exact hl
  · next heq => simp [hl] at heq

theorem feedLine_ft_none (env : Env) (st : RunnerState) (line : String)
    (h : st.failure_type = none) :
    (feedLine env st line).failure_type = classify_failure line := by
  unfold feedLine
  dsimp only
  have hl : (log env st line "INFO" "").failure_type = none := by
    rw [log_failure_type, h]
  split
  · next heq => simp [hl] at heq
  · split
    · next hc => simp [hc]
    · next hc => rw [hl, hc]

theorem feedLines_ft_some (env : Env) (lines : List String) :
    ∀ (st : RunnerState) (f : FailureCategory), st.failure_type = some f →
      (feedLines env st lines).failure_type = some f := by
  induction lines with
  | nil => intro st f h; exact h
  | cons l ls ih =>
    intro st f h
    show (feedLines env (feedLine env st l) ls).failure_type = some f
    exact ih _ f (feedLine_ft_some env st l f h)

theorem feedLines_ft_none (env : Env) (lines : List String) :
    ∀ st : RunnerState, st.failure_type = none →
      (feedLines env st lines).failure_type = lines.findSome? classify_failure := by
  induction lines with
  | nil => intro st h; exact h
  | cons l ls ih =>
    intro st h
    show (feedLines env (feedLine env st l) ls).failure_type = _
    cases hc : classify_failure l with
    | some f =>
      have hf : (feedLine env st l).failure_type = some f := by
        rw [feedLine_ft_none env st l h, hc]
      rw [feedLines_ft_some env ls _ f hf]
      simp [List.findSome?_cons, hc]
    | none =>
      have hf : (feedLine env st l).failure_type = none := by
        rw [feedLine_ft_none env st l h, hc]
      rw [ih _ hf]
      simp [List.findSome?_cons, hc]

/-- Claim C1: over the streaming loop, the recorded failure category equals
the category of the first line (in feed order) matched by
`classify_failure` (whose rules are, in order, substring tests for
"Compilation Error", "Database Error", "Runtime Error", "FAIL"); once a
category is recorded it never changes, and when no line matches it stays
`none` (`List.findSome?` returns exactly the first match, and `none` when
there is none). -/
theorem classifier_first_match_wins (env : Env) (st : RunnerState) (lines : List String) :
    (st.failure_type = none →
      (feedLines env st lines).failure_type = lines.findSome? classify_failure) ∧
    (∀ f : FailureCategory, st.failure_type = some f →
      (feedLines env st lines).failure_type = some f) :=
  ⟨feedLines_ft_none env lines st, fun f h => feedLines_ft_some env lines st f h⟩

/-- Witness for C1 at concrete inputs: a fresh session fed
`["ok", "Runtime Error: x", "FAIL 3 tests"]` records RUNTIME (the first
match), and a session that already recorded COMPILATION keeps it even
when fed a line containing "FAIL". -/
theorem classifier_first_match_wins_witness :
    (feedLines wEnv (Streaming.mkRunner "Files/log.txt" 25)
      ["ok", "Runtime Error: x", "FAIL 3 tests"]).failure_type =
        some FailureCategory.RUNTIME ∧
    (feedLines wEnv { Streaming.mkRunner "Files/log.txt" 25 with
        failure_type := some FailureCategory.COMPILATION }
      ["FAIL 3 tests"]).failure_type = some FailureCategory.COMPILATION := by
  constructor
  · have h := (classifier_first_match_wins wEnv (Streaming.mkRunner "Files/log.txt" 25)
      ["ok", "Runtime Error: x", "FAIL 3 tests"]).1 rfl
    rw [h]
    decide
  · exact (classifier_first_match_wins wEnv { Streaming.mkRunner "Files/log.txt" 25 with
        failure_type := some FailureCategory.COMPILATION }
      ["FAIL 3 tests"]).2 FailureCategory.COMPILATION rfl

/-- Claim C2: when the child process exits with code 0, the session's
success flag is still true at finalization (after `finish`), and no
"dbt run failed" error is raised, regardless of the lines streamed (so
regardless of any classified failure category). -/
theorem exit_zero_success (env : Env) (path : String) (n : Nat) (lines : List String)
    (rc : Int) (h : rc = 0) :
    (run env (mkRunner path n) lines rc).1.success = true ∧
    (run env (mkRunner path n) lines rc).2 = false := by
  subst h
  unfold run
  dsimp only
  rw [if_neg (by simp)]
  have hs : (finish env (flush env (feedLines env
      (log env { mkRunner path n with
        start_time := some (mkRunner path n).time,
        time := (mkRunner path n).time + 1 } "Starting dbt run" "INFO" "\n") lines))).success
      = true := by
    rw [finish_success, flush_success, feedLines_success, log_success]
    rfl
  exact ⟨hs, by simp [hs]⟩

/-- Witness for C2 at concrete inputs: exit code 0 with output lines that
classify as COMPILATION and TEST_FAILURE still yields success and no
raised error. -/
theorem exit_zero_success_witness :
    (run wEnv (Streaming.mkRunner "Files/log.txt" 25)
      ["Compilation Error: syntax", "FAIL 3 tests"] 0).1.success = true ∧
    (run wEnv (Streaming.mkRunner "Files/log.txt" 25)
      ["Compilation Error: syntax", "FAIL 3 tests"] 0).2 = false :=
  exit_zero_success wEnv "Files/log.txt" 25 ["Compilation Error: syntax", "FAIL 3 tests"] 0 rfl

theorem run_tail_facts (env : Env) (st2 : RunnerState) (rc : Int) :
    (finish env (flush env (log env { st2 with success := false }
      ("dbt exited with return code " ++ toString rc) "ERROR" "\n"))).success = false ∧
    containsSub (fullLog (finish env (flush env (log env { st2 with success := false }
      ("dbt exited with return code " ++ toString rc) "ERROR" "\n"))))
      ("] [ERROR] dbt exited with return code " ++ toString rc ++ "\n") = true ∧
    containsSub (fullLog (finish env (flush env (log env { st2 with success := false }
      ("dbt exited with return code " ++ toString rc) "ERROR" "\n"))))
      "] [INFO] DBT Run Finished\n" = true := by
  set stf : RunnerState := { st2 with success := false } with hstf
  set C := log env stf ("dbt exited with return code " ++ toString rc) "ERROR" "\n" with hC
  set D := flush env C with hD
  refine ⟨?_, ?_, ?_⟩
  · rw [finish_success, hD, flush_success, hC, log_success, hstf]
  · have hcat : "] [" ++ "ERROR" ++ "] " ++ "dbt exited with return code " =
        "] [ERROR] dbt exited with return code " := by decide
    have hentry : containsSub (fmtLine (env.tsFn stf.time) "ERROR"
        ("dbt exited with return code " ++ toString rc) ++ "\n")
        ("] [ERROR] dbt exited with return code " ++ toString rc ++ "\n") = true := by
      apply containsSub_entry
      rw [← hcat]
      simp only [String.append_assoc]
    have hCc : containsSub (fullLog C)
        ("] [ERROR] dbt exited with return code " ++ toString rc ++ "\n") = true := by
      rw [hC, log_fullLog]
      exact containsSub_append_right _ _ _ hentry
    have hDc : containsSub (fullLog D)
        ("] [ERROR] dbt exited with return code " ++ toString rc ++ "\n") = true := by
      rw [hD, flush_fullLog]
      exact hCc
    exact contains_mono (finish_growth env D) hDc
  · obtain ⟨a, b, hparts⟩ := finish_fullLog_parts env D
    rw [hparts]
    apply containsSub_append_right
    apply containsSub_append_right
    apply containsSub_append_left
    apply containsSub_entry
    decide

theorem bool_not_eq_true_of (b : Bool) (h : b = false) : (!b) = true := by
  rw [h]
  rfl

theorem persisted_contains_of_fullLog (env : Env) (st : RunnerState) (pat : String)
    (h : containsSub (fullLog (finish env st)) pat = true) :
    containsSub (finish env st).persisted_log pat = true := by
  rw [← fullLog_of_nil _ (finish_buffer env st)]
  exact h

/-- Claim C3: when the child process exits with a nonzero code, the session
is unsuccessful, the "dbt run failed" error is raised, and the state at the
moment of the raise — i.e. after `flush` and `finish` have completed — has a
persisted log containing both the ERROR line with that exact exit code and
the "DBT Run Finished" summary block. -/
theorem exit_nonzero_raises_after_finalize (env : Env) (path : String) (n : Nat)
    (lines : List String) (rc : Int) (h : rc ≠ 0) :
    (run env (mkRunner path n) lines rc).1.success = false ∧
    (run env (mkRunner path n) lines rc).2 = true ∧
    containsSub (run env (mkRunner path n) lines rc).1.persisted_log
      ("] [ERROR] dbt exited with return code " ++ toString rc ++ "\n") = true ∧
    containsSub (run env (mkRunner path n) lines rc).1.persisted_log
      "] [INFO] DBT Run Finished\n" = true := by
  unfold run
  dsimp only
  rw [if_pos h]
  obtain ⟨h1, h2, h3⟩ := run_tail_facts env (feedLines env (log env { mkRunner path n with
      start_time := some (mkRunner path n).time, time := (mkRunner path n).time + 1 }
      "Starting dbt run" "INFO" "\n") lines) rc
  exact ⟨h1, bool_not_eq_true_of _ h1,
    persisted_contains_of_fullLog env _ _ h2,
    persisted_contains_of_fullLog env _ _ h3⟩

/-- Witness for C3 at concrete inputs: exit code 2 on a fresh session with
one output line. -/
theorem exit_nonzero_raises_after_finalize_witness :
    (run wEnv (Streaming.mkRunner "Files/log.txt" 25) ["ok"] 2).1.success = false ∧
    (run wEnv (Streaming.mkRunner "Files/log.txt" 25) ["ok"] 2).2 = true ∧
    containsSub (run wEnv (Streaming.mkRunner "Files/log.txt" 25) ["ok"] 2).1.persisted_log
      ("] [ERROR] dbt exited with return code " ++ toString (2 : Int) ++ "\n") = true ∧
    containsSub (run wEnv (Streaming.mkRunner "Files/log.txt" 25) ["ok"] 2).1.persisted_log
      "] [INFO] DBT Run Finished\n" = true :=
  exit_nonzero_raises_after_finalize wEnv "Files/log.txt" 25 ["ok"] 2 (by decide)

theorem applyOps_fullLog (env : Env) (ops : List SinkOp) :
    ∀ st : RunnerState, fullLog (applyOps env st ops) =
      fullLog st ++ joinStr (entriesOf env st.time ops) := by
  induction ops with
  | nil => intro st; simp [applyOps, entriesOf, joinStr, String.append_empty]
  | cons op rest ih =>
    intro st
    cases op with
    | logOp m l e =>
      show fullLog (applyOps env (log env st m l e) rest) = _
      rw [ih (log env st m l e), log_fullLog, log_time]
      simp [entriesOf, joinStr, String.append_assoc]
    | flushOp =>
      show fullLog (applyOps env (flush env st) rest) = _
      rw [ih (flush env st), flush_fullLog, flush_time]
      simp [entriesOf]

theorem applyOps_snoc_flush (env : Env) (st : RunnerState) (ops : List SinkOp) :
    applyOps env st (ops ++ [SinkOp.flushOp]) = flush env (applyOps env st ops) := by
  simp [applyOps, List.foldl_append, applyOp]

/-- Claim C4: for any interleaving of log and flush calls on one sink,
flushing an empty buffer is an exact no-op on the whole state (no remote
write, no change), and immediately after any flush the cumulative
persisted-log string equals the concatenation, in append order, of every
formatted line logged so far in the session. -/
theorem flush_idempotent_and_cumulative (env : Env) (path : String) (n : Nat) :
    (∀ st : RunnerState, st.buffer = [] → flush env st = st) ∧
    (∀ ops : List SinkOp,
      (applyOps env (mkRunner path n) (ops ++ [SinkOp.flushOp])).persisted_log =
        joinStr (entriesOf env 0 ops)) := by
  refine ⟨fun st h => flush_of_empty env st h, fun ops => ?_⟩
  rw [applyOps_snoc_flush, flush_persisted]
  show fullLog (applyOps env (mkRunner path n) ops) = _
  rw [applyOps_fullLog]
  simp [fullLog, mkRunner, joinStr, String.empty_append, String.append_empty]

/-- Witness for C4 at concrete inputs: flushing a fresh (empty-buffer) sink
changes nothing, and after one log followed by a flush the persisted log is
exactly the one formatted entry. -/
theorem flush_idempotent_and_cumulative_witness :
    flush wEnv (Streaming.mkRunner "Files/log.txt" 25) =
      Streaming.mkRunner "Files/log.txt" 25 ∧
    (applyOps wEnv (Streaming.mkRunner "Files/log.txt" 25)
      ([SinkOp.logOp "hello" "INFO" "\n"] ++ [SinkOp.flushOp])).persisted_log =
      joinStr (entriesOf wEnv 0 [SinkOp.logOp "hello" "INFO" "\n"]) :=
  ⟨(flush_idempotent_and_cumulative wEnv "Files/log.txt" 25).1 _ rfl,
   (flush_idempotent_and_cumulative wEnv "Files/log.txt" 25).2
     [SinkOp.logOp "hello" "INFO" "\n"]⟩

theorem log_no_flush (env : Env) (st : RunnerState) (m l e : String)
    (h : st.buffer.length + 1 < st.flush_every) :
    log env st m l e =
      { st with
        time := st.time + 1,
        buffer := st.buffer ++ [fmtLine (env.tsFn st.time) l m ++ e] } := by
  unfold log
  dsimp only
  rw [if_neg (by simp only [List.length_append, List.length_cons, List.length_nil]; omega)]

theorem log_triggers_flush (env : Env) (st : RunnerState) (m l e : String)
    (hfe : st.flush_every = st.buffer.length + 1) :
    log env st m l e =
      flush env
        { st with
          time := st.time + 1,
          buffer := st.buffer ++ [fmtLine (env.tsFn st.time) l m ++ e] } := by
  unfold log
  dsimp only
  rw [if_pos (by simp [hfe])]

theorem flush_success_write (env : Env) (st : RunnerState) (hne : st.buffer ≠ [])
    (hok : env.putOk st.putAttempts = true) :
    (flush env st).remote = some (st.persisted_log ++ joinStr st.buffer) ∧
    (flush env st).remoteWrites = st.remoteWrites + 1 ∧
    (flush env st).buffer = [] := by
  unfold flush
  rw [if_neg (by simpa using hne)]
  dsimp only
  rw [if_pos hok]
  exact ⟨rfl, rfl, rfl⟩

theorem flush_failed_write (env : Env) (st : RunnerState) (hne : st.buffer ≠ [])
    (hfail : env.putOk st.putAttempts = false) :
    flush env st =
      { st with
        buffer := ([] : List String),
        persisted_log := st.persisted_log ++ joinStr st.buffer,
        putAttempts := st.putAttempts + 1 } := by
  unfold flush
  rw [if_neg (by simpa using hne)]
  dsimp only
  rw [if_neg (by simp [hfail])]

theorem length_entriesOf_logOps (env : Env) (msgs : List (String × String × String)) :
    ∀ t : Nat, (entriesOf env t (logOps msgs)).length = msgs.length := by
  induction msgs with
  | nil => intro t; rfl
  | cons mle rest ih =>
    intro t
    show (entriesOf env t (SinkOp.logOp mle.1 mle.2.1 mle.2.2 :: logOps rest)).length = _
    simp [entriesOf, ih]

theorem numLogs_logOps (msgs : List (String × String × String)) :
    numLogs (logOps msgs) = msgs.length := by
  induction msgs with
  | nil => rfl
  | cons mle rest ih =>
    show numLogs (SinkOp.logOp mle.1 mle.2.1 mle.2.2 :: logOps rest) = _
    simp [numLogs, ih]

theorem entriesOf_append (env : Env) (ops1 ops2 : List SinkOp) :
    ∀ t : Nat, entriesOf env t (ops1 ++ ops2) =
      entriesOf env t ops1 ++ entriesOf env (t + numLogs ops1) ops2 := by
  induction ops1 with
  | nil => intro t; simp [entriesOf, numLogs]
  | cons op rest ih =>
    intro t
    cases op with
    | logOp m l e =>
      show entriesOf env t (SinkOp.logOp m l e :: (rest ++ ops2)) = _
      simp only [entriesOf, numLogs, ih (t + 1), List.cons_append]
      rw [show t + 1 + numLogs rest = t + (numLogs rest + 1) from by omega]
    | flushOp =>
      show entriesOf env t (SinkOp.flushOp :: (rest ++ ops2)) = _
      simp only [entriesOf, numLogs, ih t]

theorem applyLogs_no_flush (env : Env) (msgs : List (String × String × String)) :
    ∀ st : RunnerState, st.buffer.length + msgs.length < st.flush_every →
      applyOps env st (logOps msgs) =
        { st with
          time := st.time + msgs.length,
          buffer := st.buffer ++ entriesOf env st.time (logOps msgs) } := by
  induction msgs with
  | nil =>
    intro st h
    show st = _
    simp [logOps, entriesOf]
  | cons mle rest ih =>
    intro st h
    have hlc : st.buffer.length + (rest.length + 1) < st.flush_every := by
      simpa using h
    show applyOps env (log env st mle.1 mle.2.1 mle.2.2) (logOps rest) = _
    rw [log_no_flush env st _ _ _ (by omega)]
    rw [ih _ (by simp only [List.length_append, List.length_cons, List.length_nil]; omega)]
    have ht : st.time + 1 + rest.length = st.time + (rest.length + 1) := by omega
    simp [logOps, entriesOf, List.append_assoc, ht]

/-- Claim C5: with the default threshold 25, a fresh sink takes 24 log
calls with no remote write (all 24 formatted entries stay buffered), and
the 25th log call synchronously performs exactly one successful remote
write whose content is the concatenation of all 25 formatted lines in
order, emptying the buffer. -/
theorem auto_flush_at_threshold (env : Env) (path : String)
    (msgs : List (String × String × String)) (h24 : msgs.length = 24)
    (hok : env.putOk 0 = true) (m l e : String) :
    (applyOps env (mkRunner path 25) (logOps msgs)).remoteWrites = 0 ∧
    (applyOps env (mkRunner path 25) (logOps msgs)).remote = none ∧
    (applyOps env (mkRunner path 25) (logOps msgs)).buffer =
      entriesOf env 0 (logOps msgs) ∧
    (log env (applyOps env (mkRunner path 25) (logOps msgs)) m l e).remoteWrites = 1 ∧
    (log env (applyOps env (mkRunner path 25) (logOps msgs)) m l e).remote =
      some (joinStr (entriesOf env 0 (logOps msgs ++ [SinkOp.logOp m l e]))) ∧
    (log env (applyOps env (mkRunner path 25) (logOps msgs)) m l e).buffer = [] := by
  set ST := applyOps env (mkRunner path 25) (logOps msgs) with hST
  have hst : ST =
      { mkRunner path 25 with
        time := (mkRunner path 25).time + msgs.length,
        buffer := (mkRunner path 25).buffer ++
          entriesOf env (mkRunner path 25).time (logOps msgs) } := by
    rw [hST]
    exact applyLogs_no_flush env msgs (mkRunner path 25) (by simp [mkRunner, h24])
  have hbuf : ST.buffer = entriesOf env 0 (logOps msgs) := by
    rw [hst]; simp [mkRunner]
  have hrw0 : ST.remoteWrites = 0 := by rw [hst]; simp [mkRunner]
  have hrem : ST.remote = none := by rw [hst]; simp [mkRunner]
  have htime : ST.time = 24 := by rw [hst]; simp [mkRunner, h24]
  have hatt : ST.putAttempts = 0 := by rw [hst]; simp [mkRunner]
  have hfe : ST.flush_every = 25 := by rw [hst]; simp [mkRunner]
  have hper : ST.persisted_log = "" := by rw [hst]; simp [mkRunner]
  have hblen : ST.buffer.length = 24 := by
    rw [hbuf, length_entriesOf_logOps, h24]
  have htrig := log_triggers_flush env ST m l e (by rw [hfe, hblen])
  obtain ⟨hr1, hr2, hr3⟩ := flush_success_write env
    { ST with
      time := ST.time + 1,
      buffer := ST.buffer ++ [fmtLine (env.tsFn ST.time) l m ++ e] }
    (by simp) (by simp [hatt, hok])
  refine ⟨hrw0, hrem, hbuf, ?_, ?_, ?_⟩
  · rw [htrig, hr2]
    simp [hrw0]
  · rw [htrig, hr1]
    simp only [hper, hbuf, htime, String.empty_append]
    rw [entriesOf_append, numLogs_logOps, h24]
    simp [entriesOf, joinStr_append, joinStr, String.append_empty]
  · rw [htrig]
    exact hr3

/-- Witness for C5 at concrete inputs: 24 identical log calls then a 25th
on a fresh sink with threshold 25 and a succeeding remote write. -/
theorem auto_flush_at_threshold_witness :
    (applyOps wEnv (Streaming.mkRunner "Files/log.txt" 25)
      (logOps (List.replicate 24 ("line", "INFO", "\n")))).remoteWrites = 0 ∧
    (applyOps wEnv (Streaming.mkRunner "Files/log.txt" 25)
      (logOps (List.replicate 24 ("line", "INFO", "\n")))).remote = none ∧
    (applyOps wEnv (Streaming.mkRunner "Files/log.txt" 25)
      (logOps (List.replicate 24 ("line", "INFO", "\n")))).buffer =
      entriesOf wEnv 0 (logOps (List.replicate 24 ("line", "INFO", "\n"))) ∧
    (log wEnv (applyOps wEnv (Streaming.mkRunner "Files/log.txt" 25)
      (logOps (List.replicate 24 ("line", "INFO", "\n")))) "last" "INFO" "\n").remoteWrites
      = 1 ∧
    (log wEnv (applyOps wEnv (Streaming.mkRunner "Files/log.txt" 25)
      (logOps (List.replicate 24 ("line", "INFO", "\n")))) "last" "INFO" "\n").remote =
      some (joinStr (entriesOf wEnv 0 (logOps (List.replicate 24 ("line", "INFO", "\n")) ++
        [SinkOp.logOp "last" "INFO" "\n"]))) ∧
    (log wEnv (applyOps wEnv (Streaming.mkRunner "Files/log.txt" 25)
      (logOps (List.replicate 24 ("line", "INFO", "\n")))) "last" "INFO" "\n").buffer = [] :=
  auto_flush_at_threshold wEnv "Files/log.txt" (List.replicate 24 ("line", "INFO", "\n"))
    (by decide) rfl "last" "INFO" "\n"

theorem log_persisted_growth (env : Env) (st : RunnerState) (m l e : String) :
    ∃ s, (log env st m l e).persisted_log = st.persisted_log ++ s := by
  unfold log
  dsimp only
  split
  · exact ⟨_, flush_persisted env _⟩
  · exact ⟨"", (String.append_empty _).symm⟩

theorem applyOps_persisted_growth (env : Env) (ops : List SinkOp) :
    ∀ st : RunnerState, ∃ s, (applyOps env st ops).persisted_log = st.persisted_log ++ s := by
  induction ops with
  | nil => intro st; exact ⟨"", (String.append_empty _).symm⟩
  | cons op rest ih =>
    intro st
    cases op with
    | logOp m l e =>
      show ∃ s, (applyOps env (log env st m l e) rest).persisted_log = _
      obtain ⟨s1, h1⟩ := log_persisted_growth env st m l e
      obtain ⟨s2, h2⟩ := ih (log env st m l e)
      exact ⟨s1 ++ s2, by rw [h2, h1, String.append_assoc]⟩
    | flushOp =>
      show ∃ s, (applyOps env (flush env st) rest).persisted_log = _
      obtain ⟨s2, h2⟩ := ih (flush env st)
      exact ⟨joinStr st.buffer ++ s2, by
        rw [h2, flush_persisted, String.append_assoc]⟩

/-- Claim C9: when the remote write of a flush fails, the buffer has been
cleared and its concatenation appended to the cumulative persisted-log
string anyway (the remote content and write count are untouched), so no
formatted line is ever dropped; and whatever sink operations follow, the
next successful flush writes the previously failed chunk together with
everything logged since.  Flush is thus not atomic on error. -/
theorem flush_clears_before_write (env : Env) (st : RunnerState)
    (hb : st.buffer ≠ []) (hfail : env.putOk st.putAttempts = false) :
    (flush env st).buffer = [] ∧
    (flush env st).persisted_log = st.persisted_log ++ joinStr st.buffer ∧
    (flush env st).remote = st.remote ∧
    (flush env st).remoteWrites = st.remoteWrites ∧
    (∀ ops : List SinkOp,
      (applyOps env (flush env st) ops).buffer ≠ [] →
      env.putOk (applyOps env (flush env st) ops).putAttempts = true →
      ∃ rest, (flush env (applyOps env (flush env st) ops)).remote =
        some (st.persisted_log ++ joinStr st.buffer ++ rest)) := by
  have hflush := flush_failed_write env st hb hfail
  refine ⟨by rw [hflush], by rw [hflush], by rw [hflush], by rw [hflush], ?_⟩
  intro ops hne2 hok2
  obtain ⟨s, hs⟩ := applyOps_persisted_growth env ops (flush env st)
  obtain ⟨r1, _, _⟩ := flush_success_write env (applyOps env (flush env st) ops) hne2 hok2
  refine ⟨s ++ joinStr (applyOps env (flush env st) ops).buffer, ?_⟩
  rw [r1, hs, flush_persisted]
  simp only [String.append_assoc]

/-- Witness for C9 at concrete inputs: a sink with one buffered entry and a
failing remote write. -/
theorem flush_clears_before_write_witness :
    (flush wEnvFail { Streaming.mkRunner "Files/log.txt" 25 with
      buffer := ["a"] }).buffer = [] ∧
    (flush wEnvFail { Streaming.mkRunner "Files/log.txt" 25 with
      buffer := ["a"] }).persisted_log =
      (Streaming.mkRunner "Files/log.txt" 25).persisted_log ++ joinStr ["a"] ∧
    (flush wEnvFail { Streaming.mkRunner "Files/log.txt" 25 with
      buffer := ["a"] }).remote = (Streaming.mkRunner "Files/log.txt" 25).remote ∧
    (flush wEnvFail { Streaming.mkRunner "Files/log.txt" 25 with
      buffer := ["a"] }).remoteWrites = (Streaming.mkRunner "Files/log.txt" 25).remoteWrites ∧
    (∀ ops : List SinkOp,
      (applyOps wEnvFail (flush wEnvFail { Streaming.mkRunner "Files/log.txt" 25 with
        buffer := ["a"] }) ops).buffer ≠ [] →
      wEnvFail.putOk (applyOps wEnvFail (flush wEnvFail
        { Streaming.mkRunner "Files/log.txt" 25 with
          buffer := ["a"] }) ops).putAttempts = true →
      ∃ rest, (flush wEnvFail (applyOps wEnvFail (flush wEnvFail
        { Streaming.mkRunner "Files/log.txt" 25 with
          buffer := ["a"] }) ops)).remote =
        some ((Streaming.mkRunner "Files/log.txt" 25).persisted_log ++
          joinStr ["a"] ++ rest)) :=
  flush_clears_before_write wEnvFail
    { Streaming.mkRunner "Files/log.txt" 25 with buffer := ["a"] }
    (by simp) rfl

theorem obsEq_flush (env1 env2 : Env) (st1 st2 : RunnerState) (h : obsEq st1 st2) :
    obsEq (flush env1 st1) (flush env2 st2) := by
  obtain ⟨h1, h2, h3, h4, h5, h6, h7, h8, h9⟩ := h
  unfold flush
  rw [h3, h4, h9]
  split
  · exact ⟨h1, h2, h3, h4, h5, h6, h7, h8, h9⟩
  · dsimp only
    split <;> split <;>
      (refine ⟨?_, ?_, ?_, ?_, ?_, ?_, ?_, ?_, ?_⟩ <;>
        simp [h1, h2, h3, h4, h5, h6, h7, h8, h9])

theorem obsEq_log (env1 env2 : Env) (hts : env1.tsFn = env2.tsFn)
    (st1 st2 : RunnerState) (h : obsEq st1 st2) (m l e : String) :
    obsEq (log env1 st1 m l e) (log env2 st2 m l e) := by
  obtain ⟨h1, h2, h3, h4, h5, h6, h7, h8, h9⟩ := h
  unfold log
  dsimp only
  rw [h2, h3, h8, hts]
  split
  · apply obsEq_flush
    refine ⟨?_, ?_, ?_, ?_, ?_, ?_, ?_, ?_, ?_⟩ <;>
      simp [h1, h2, h3, h4, h5, h6, h7, h8, h9]
  · refine ⟨?_, ?_, ?_, ?_, ?_, ?_, ?_, ?_, ?_⟩ <;>
      simp [h1, h2, h3, h4, h5, h6, h7, h8, h9]

theorem obsEq_feedLine (env1 env2 : Env) (hts : env1.tsFn = env2.tsFn)
    (st1 st2 : RunnerState) (h : obsEq st1 st2) (line : String) :
    obsEq (feedLine env1 st1 line) (feedLine env2 st2 line) := by
  have hlog := obsEq_log env1 env2 hts st1 st2 h line "INFO" ""
  obtain ⟨g1, g2, g3, g4, g5, g6, g7, g8, g9⟩ := hlog
  unfold feedLine
  dsimp only
  rw [g6]
  cases hft : (log env2 st2 line "INFO" "").failure_type with
  | some f =>
    simp only [hft]
    exact ⟨g1, g2, g3, g4, g5, by rw [g6, hft], g7, g8, g9⟩
  | none =>
    cases hcl : classify_failure line with
    | some f =>
      simp only [hft, hcl]
      exact ⟨g1, g2, g3, g4, g5, rfl, g7, g8, g9⟩
    | none =>
      simp only [hft, hcl]
      exact ⟨g1, g2, g3, g4, g5, by rw [g6, hft], g7, g8, g9⟩

theorem obsEq_feedLines (env1 env2 : Env) (hts : env1.tsFn = env2.tsFn)
    (lines : List String) :
    ∀ st1 st2 : RunnerState, obsEq st1 st2 →
      obsEq (feedLines env1 st1 lines) (feedLines env2 st2 lines) := by
  induction lines with
  | nil => intro st1 st2 h; exact h
  | cons l ls ih =>
    intro st1 st2 h
    show obsEq (feedLines env1 (feedLine env1 st1 l) ls)
      (feedLines env2 (feedLine env2 st2 l) ls)
    exact ih _ _ (obsEq_feedLine env1 env2 hts st1 st2 h l)

theorem obsEq_finish (env1 env2 : Env) (hts : env1.tsFn = env2.tsFn)
    (hdur : env1.durFn = env2.durFn) (st1 st2 : RunnerState) (h : obsEq st1 st2) :
    obsEq (finish env1 st1) (finish env2 st2) := by
  unfold finish
  dsimp only
  set a1 := log env1 st1 "" "INFO" "\n" with ha1
  set a2 := log env2 st2 "" "INFO" "\n" with ha2
  set b1 := log env1 a1 sep40 "INFO" "\n" with hb1
  set b2 := log env2 a2 sep40 "INFO" "\n" with hb2
  set c1 := log env1 b1 "DBT Run Finished" "INFO" "\n" with hc1
  set c2 := log env2 b2 "DBT Run Finished" "INFO" "\n" with hc2
  have qa : obsEq a1 a2 := by
    rw [ha1, ha2]; exact obsEq_log env1 env2 hts st1 st2 h "" "INFO" "\n"
  have qb : obsEq b1 b2 := by
    rw [hb1, hb2]; exact obsEq_log env1 env2 hts a1 a2 qa sep40 "INFO" "\n"
  have qc : obsEq c1 c2 := by
    rw [hc1, hc2]; exact obsEq_log env1 env2 hts b1 b2 qb "DBT Run Finished" "INFO" "\n"
  have hsucc : c1.success = c2.success := qc.2.2.2.2.1
  have hdur2 : env1.durFn (st1.start_time.getD 0) st1.time =
      env2.durFn (st2.start_time.getD 0) st2.time := by
    rw [hdur, h.2.2.2.2.2.2.1, h.2.2.2.2.2.2.2.1]
  rw [hsucc, hdur2]
  have qd := obsEq_log env1 env2 hts c1 c2 qc
    ("Success: " ++ (if c2.success then "True" else "False")) "INFO" "\n"
  have qe := obsEq_log env1 env2 hts _ _ qd
    ("Duration: " ++ env2.durFn (st2.start_time.getD 0) st2.time ++ "s") "INFO" "\n"
  have hft : (log env1 (log env1 c1
      ("Success: " ++ (if c2.success then "True" else "False")) "INFO" "\n")
      ("Duration: " ++ env2.durFn (st2.start_time.getD 0) st2.time ++ "s") "INFO"
      "\n").failure_type =
    (log env2 (log env2 c2
      ("Success: " ++ (if c2.success then "True" else "False")) "INFO" "\n")
      ("Duration: " ++ env2.durFn (st2.start_time.getD 0) st2.time ++ "s") "INFO"
      "\n").failure_type := qe.2.2.2.2.2.1
  rw [hft]
  cases hcase : (log env2 (log env2 c2
      ("Success: " ++ (if c2.success then "True" else "False")) "INFO" "\n")
      ("Duration: " ++ env2.durFn (st2.start_time.getD 0) st2.time ++ "s") "INFO"
      "\n").failure_type with
  | some f =>
    simp only [hcase]
    exact obsEq_flush env1 env2 _ _ (obsEq_log env1 env2 hts _ _
      (obsEq_log env1 env2 hts _ _ qe ("Failure type: " ++ f.toStr) "ERROR" "\n")
      sep40 "INFO" "\n")
  | none =>
    simp only [hcase]
    exact obsEq_flush env1 env2 _ _ (obsEq_log env1 env2 hts _ _ qe sep40 "INFO" "\n")

theorem obsEq_set_success (st1 st2 : RunnerState) (h : obsEq st1 st2) (b : Bool) :
    obsEq { st1 with success := b } { st2 with success := b } := by
  obtain ⟨h1, h2, h3, h4, h5, h6, h7, h8, h9⟩ := h
  exact ⟨h1, h2, h3, h4, rfl, h6, h7, h8, h9⟩

theorem obsEq_start (st1 st2 : RunnerState) (h : obsEq st1 st2) :
    obsEq { st1 with start_time := some st1.time, time := st1.time + 1 }
      { st2 with start_time := some st2.time, time := st2.time + 1 } := by
  obtain ⟨h1, h2, h3, h4, h5, h6, h7, h8, h9⟩ := h
  exact ⟨h1, h2, h3, h4, h5, h6, by rw [h8], by rw [h8], h9⟩

theorem obsEq_run (env1 env2 : Env) (hts : env1.tsFn = env2.tsFn)
    (hdur : env1.durFn = env2.durFn) (st1 st2 : RunnerState) (h : obsEq st1 st2)
    (lines : List String) (rc : Int) :
    obsEq (run env1 st1 lines rc).1 (run env2 st2 lines rc).1 ∧
    (run env1 st1 lines rc).2 = (run env2 st2 lines rc).2 := by
  unfold run
  dsimp only
  have hb := obsEq_log env1 env2 hts _ _ (obsEq_start st1 st2 h) "Starting dbt run" "INFO" "\n"
  have hf := obsEq_feedLines env1 env2 hts lines _ _ hb
  by_cases hrc : rc ≠ 0
  · rw [if_pos hrc, if_pos hrc]
    have herr := obsEq_log env1 env2 hts _ _ (obsEq_set_success _ _ hf false)
      ("dbt exited with return code " ++ toString rc) "ERROR" "\n"
    have hfin := obsEq_finish env1 env2 hts hdur _ _ (obsEq_flush env1 env2 _ _ herr)
    exact ⟨hfin, by rw [hfin.2.2.2.2.1]⟩
  · rw [if_neg hrc, if_neg hrc]
    have hfin := obsEq_finish env1 env2 hts hdur _ _ (obsEq_flush env1 env2 _ _ hf)
    exact ⟨hfin, by rw [hfin.2.2.2.2.1]⟩

/-- Claim C6: a failing remote write inside `flush` is caught and never
propagates (flush is total and leaves success and failure category
untouched for every state), and the whole outcome of a run — success flag,
failure category, persisted log, and whether the "dbt run failed" error is
raised — is identical under any two write-outcome oracles (same clock and
duration oracles), so a run is never reported failed because of a
log-persistence failure. -/
theorem flush_errors_isolated (env1 env2 : Env) (hts : env1.tsFn = env2.tsFn)
    (hdur : env1.durFn = env2.durFn) (path : String) (n : Nat)
    (lines : List String) (rc : Int) :
    (∀ st : RunnerState, (flush env1 st).success = st.success ∧
      (flush env1 st).failure_type = st.failure_type) ∧
    (run env1 (mkRunner path n) lines rc).1.success =
      (run env2 (mkRunner path n) lines rc).1.success ∧
    (run env1 (mkRunner path n) lines rc).1.failure_type =
      (run env2 (mkRunner path n) lines rc).1.failure_type ∧
    (run env1 (mkRunner path n) lines rc).1.persisted_log =
      (run env2 (mkRunner path n) lines rc).1.persisted_log ∧
    (run env1 (mkRunner path n) lines rc).2 = (run env2 (mkRunner path n) lines rc).2 := by
  have hrefl : obsEq (mkRunner path n) (mkRunner path n) :=
    ⟨rfl, rfl, rfl, rfl, rfl, rfl, rfl, rfl, rfl⟩
  obtain ⟨ho, hb⟩ := obsEq_run env1 env2 hts hdur _ _ hrefl lines rc
  exact ⟨fun st => ⟨flush_success env1 st, flush_failure_type env1 st⟩,
    ho.2.2.2.2.1, ho.2.2.2.2.2.1, ho.2.2.2.1, hb⟩

/-- Witness for C6 at concrete inputs: the run with all remote writes
succeeding and the run with all remote writes failing agree on success,
failure category, persisted log and the raised error. -/
theorem flush_errors_isolated_witness :
    (∀ st : RunnerState, (flush wEnv st).success = st.success ∧
      (flush wEnv st).failure_type = st.failure_type) ∧
    (run wEnv (Streaming.mkRunner "Files/log.txt" 25) ["FAIL"] 1).1.success =
      (run wEnvFail (Streaming.mkRunner "Files/log.txt" 25) ["FAIL"] 1).1.success ∧
    (run wEnv (Streaming.mkRunner "Files/log.txt" 25) ["FAIL"] 1).1.failure_type =
      (run wEnvFail (Streaming.mkRunner "Files/log.txt" 25) ["FAIL"] 1).1.failure_type ∧
    (run wEnv (Streaming.mkRunner "Files/log.txt" 25) ["FAIL"] 1).1.persisted_log =
      (run wEnvFail (Streaming.mkRunner "Files/log.txt" 25) ["FAIL"] 1).1.persisted_log ∧
    (run wEnv (Streaming.mkRunner "Files/log.txt" 25) ["FAIL"] 1).2 =
      (run wEnvFail (Streaming.mkRunner "Files/log.txt" 25) ["FAIL"] 1).2 :=
  flush_errors_isolated wEnv wEnvFail rfl rfl "Files/log.txt" 25 ["FAIL"] 1

end Streaming

/-!
Helper lemmas and claims about the `fabric_dbt_runner` package.
-/

namespace Fdr

theorem dictInsert_fresh (d : List (String × String)) (k v : String)
    (h : ∀ p ∈ d, ¬ (p.1 = k)) : dictInsert d k v = d ++ [(k, v)] := by
  have hno : ¬ (d.any (fun p => p.1 == k) = true) := by
    intro hany
    rw [List.any_eq_true] at hany
    obtain ⟨p, hp, hpk⟩ := hany
    exact h p hp (by simpa using hpk)
  unfold dictInsert
  rw [if_neg hno]

theorem lff_foldl (pfx : String) (environ : List (String × String)) :
    ∀ acc : List (String × String),
      ((environ.filter (fun kv => pyStartsWith kv.1 pfx)).map
          (fun kv => pyLower (pyDrop kv.1 pfx.length))).Nodup →
      (∀ k ∈ (environ.filter (fun kv => pyStartsWith kv.1 pfx)).map
          (fun kv => pyLower (pyDrop kv.1 pfx.length)), ∀ p ∈ acc, ¬ (p.1 = k)) →
      environ.foldl
        (fun varTable kv =>
          if pyStartsWith kv.1 pfx then
            dictInsert varTable (pyLower (pyDrop kv.1 pfx.length)) kv.2
          else varTable) acc =
      acc ++ (environ.filter (fun kv => pyStartsWith kv.1 pfx)).map
        (fun kv => (pyLower (pyDrop kv.1 pfx.length), kv.2)) := by
  induction environ with
  | nil => intro acc _ _; simp
  | cons kv rest ih =>
    intro acc hnd hdisj
    by_cases hs : pyStartsWith kv.1 pfx = true
    · have hk : pyLower (pyDrop kv.1 pfx.length) ∈
          ((kv :: rest).filter (fun kv => pyStartsWith kv.1 pfx)).map
            (fun kv => pyLower (pyDrop kv.1 pfx.length)) := by
        simp [List.filter_cons, hs]
      have hfresh : ∀ p ∈ acc, ¬ (p.1 = pyLower (pyDrop kv.1 pfx.length)) :=
        fun p hp => hdisj _ hk p hp
      rw [List.foldl_cons, if_pos hs, dictInsert_fresh acc _ kv.2 hfresh]
      have hnd' : ((rest.filter (fun kv => pyStartsWith kv.1 pfx)).map
          (fun kv => pyLower (pyDrop kv.1 pfx.length))).Nodup := by
        rw [List.filter_cons, if_pos hs, List.map_cons] at hnd
        exact hnd.of_cons
      have hhead : pyLower (pyDrop kv.1 pfx.length) ∉
          (rest.filter (fun kv => pyStartsWith kv.1 pfx)).map
            (fun kv => pyLower (pyDrop kv.1 pfx.length)) := by
        rw [List.filter_cons, if_pos hs, List.map_cons, List.nodup_cons] at hnd
        exact hnd.1
      have hdisj' : ∀ k ∈ (rest.filter (fun kv => pyStartsWith kv.1 pfx)).map
          (fun kv => pyLower (pyDrop kv.1 pfx.length)),
          ∀ p ∈ acc ++ [(pyLower (pyDrop kv.1 pfx.length), kv.2)], ¬ (p.1 = k) := by
        intro k hkmem p hp
        rcases List.mem_append.1 hp with hpa | hpb
        · exact hdisj k (by simp [List.filter_cons, hs, hkmem]) p hpa
        · have hpe : p = (pyLower (pyDrop kv.1 pfx.length), kv.2) := by simpa using hpb
          rw [hpe]
          intro heq
          apply hhead
          have heq2 : pyLower (pyDrop kv.1 pfx.length) = k := heq
          rw [heq2]
          exact hkmem
      rw [ih _ hnd' hdisj']
      simp [List.filter_cons, hs, List.append_assoc]
    · rw [List.foldl_cons, if_neg hs]
      have hnd' : ((rest.filter (fun kv => pyStartsWith kv.1 pfx)).map
          (fun kv => pyLower (pyDrop kv.1 pfx.length))).Nodup := by
        rw [List.filter_cons, if_neg hs] at hnd
        exact hnd
      have hdisj' : ∀ k ∈ (rest.filter (fun kv => pyStartsWith kv.1 pfx)).map
          (fun kv => pyLower (pyDrop kv.1 pfx.length)), ∀ p ∈ acc, ¬ (p.1 = k) := by
        intro k hkmem
        exact hdisj k (by rw [List.filter_cons, if_neg hs]; exact hkmem)
      rw [ih _ hnd' hdisj']
      simp [List.filter_cons, hs]

/-- Claim C7: loading from the variable source exposes exactly the
environment entries whose keys start with the upper-cased library name
followed by an underscore, prefix-stripped and lower-cased, in order
(stated under the hypothesis that no two matching keys collide after the
transformation, which is how `os.environ`, a dict, behaves); and when the
exposed "vars" entry is present but fails JSON parsing, the configuration's
vars value is the empty mapping, with no error raised (the function is
total). -/
theorem variable_library_prefix_and_bad_json
    (J : Type) (emptyObj : J) (parseJson : String → Option J)
    (library_name : String) (environ : List (String × String)) :
    (((environ.filter (fun kv => pyStartsWith kv.1 (pyUpper library_name ++ "_"))).map
        (fun kv => pyLower (pyDrop kv.1 (pyUpper library_name ++ "_").length))).Nodup →
      load_from_fabric library_name environ =
        (environ.filter (fun kv => pyStartsWith kv.1 (pyUpper library_name ++ "_"))).map
          (fun kv => (pyLower (pyDrop kv.1 (pyUpper library_name ++ "_").length), kv.2))) ∧
    (∀ s : String,
      dictGet (load_from_fabric library_name environ) "vars" = some s →
      parseJson s = none →
      (load_dbt_config J emptyObj parseJson library_name environ).vars = some emptyObj) := by
  constructor
  · intro hnd
    unfold load_from_fabric
    dsimp only
    rw [lff_foldl (pyUpper library_name ++ "_") environ [] hnd (by simp)]
    simp
  · intro s hv hp
    unfold load_dbt_config
    dsimp only
    rw [hv]
    dsimp only
    rw [hp]

/-- Witness for C7 at concrete inputs: a three-entry environment for
library "dbt_config" with a non-JSON "vars" payload. -/
theorem variable_library_prefix_and_bad_json_witness :
    load_from_fabric "dbt_config" wEnviron =
      [("target", "prod"), ("vars", "not json")] ∧
    (load_dbt_config (List (String × String)) [] (fun _ => none)
      "dbt_config" wEnviron).vars = some [] := by
  constructor
  · have h := (variable_library_prefix_and_bad_json (List (String × String)) []
      (fun _ => none) "dbt_config" wEnviron).1 (by decide)
    rw [h]
    decide
  · exact (variable_library_prefix_and_bad_json (List (String × String)) []
      (fun _ => none) "dbt_config" wEnviron).2 "not json" (by decide) rfl

/-- Claim C8: a configuration constructed with no overrides has target
"dev", the working directory as (non-empty) project directory, the home
profiles directory as (non-empty) profiles directory and an empty variables
mapping; its rendered argument list is exactly the three flag pairs
--project-dir, --profiles-dir, --target with those values (no --vars); and
for any configuration with a non-empty variables mapping the rendered list
is the vars-free list with exactly one --vars flag followed by the JSON
encoding appended. -/
theorem config_defaults_and_args (sys : SysEnv) (dumps : List (String × String) → String)
    (h : sys.getcwd ≠ "") :
    (DbtConfig.init sys none none none none).target = "dev" ∧
    (DbtConfig.init sys none none none none).project_dir = sys.getcwd ∧
    (DbtConfig.init sys none none none none).project_dir ≠ "" ∧
    (DbtConfig.init sys none none none none).profiles_dir = sys.home ++ "/.dbt" ∧
    (DbtConfig.init sys none none none none).profiles_dir ≠ "" ∧
    (DbtConfig.init sys none none none none).vars = [] ∧
    (DbtConfig.init sys none none none none).get_dbt_args dumps =
      ["--project-dir", sys.getcwd, "--profiles-dir", sys.home ++ "/.dbt",
       "--target", "dev"] ∧
    (∀ c : DbtConfig, c.vars ≠ [] →
      c.get_dbt_args dumps =
        ({ c with vars := [] } : DbtConfig).get_dbt_args dumps ++
          ["--vars", dumps c.vars]) := by
  have hprof : sys.home ++ "/.dbt" ≠ "" := by
    intro heq
    have hlen := congrArg String.length heq
    rw [String.length_append] at hlen
    have h5 : ("/.dbt" : String).length = 5 := rfl
    have h0 : ("" : String).length = 0 := rfl
    rw [h5, h0] at hlen
    omega
  have hcb : (sys.getcwd == "") = false := by
    simpa using h
  have hpb : ((sys.home ++ "/.dbt") == "") = false := by
    simpa using hprof
  refine ⟨rfl, rfl, h, rfl, hprof, rfl, ?_, ?_⟩
  · show DbtConfig.get_dbt_args dumps
      { project_dir := sys.getcwd, profiles_dir := sys.home ++ "/.dbt",
        target := "dev", vars := [] } = _
    unfold DbtConfig.get_dbt_args
    dsimp only
    rw [hcb, hpb]
    simp
  · intro c hc
    have hv : c.vars.isEmpty = false := by
      simpa [List.isEmpty_iff] using hc
    unfold DbtConfig.get_dbt_args
    dsimp only
    simp [hv]

/-- Witness for C8 at concrete inputs: a concrete process environment and a
constant JSON encoder; the non-empty-vars conjunct is instantiated inside
the applied theorem. -/
theorem config_defaults_and_args_witness :
    (DbtConfig.init { getcwd := "/workspace", home := "/root" }
      none none none none).target = "dev" ∧
    (DbtConfig.init { getcwd := "/workspace", home := "/root" }
      none none none none).project_dir = "/workspace" ∧
    (DbtConfig.init { getcwd := "/workspace", home := "/root" }
      none none none none).project_dir ≠ "" ∧
    (DbtConfig.init { getcwd := "/workspace", home := "/root" }
      none none none none).profiles_dir = "/root" ++ "/.dbt" ∧
    (DbtConfig.init { getcwd := "/workspace", home := "/root" }
      none none none none).profiles_dir ≠ "" ∧
    (DbtConfig.init { getcwd := "/workspace", home := "/root" }
      none none none none).vars = [] ∧
    (DbtConfig.init { getcwd := "/workspace", home := "/root" }
      none none none none).get_dbt_args (fun _ => "JSON") =
      ["--project-dir", "/workspace", "--profiles-dir", "/root" ++ "/.dbt",
       "--target", "dev"] ∧
    (∀ c : DbtConfig, c.vars ≠ [] →
      c.get_dbt_args (fun _ => "JSON") =
        ({ c with vars := [] } : DbtConfig).get_dbt_args (fun _ => "JSON") ++
          ["--vars", "JSON"]) :=
  config_defaults_and_args { getcwd := "/workspace", home := "/root" }
    (fun _ => "JSON") (by decide)

theorem addKwargs_false_mid (cmd : List String) (k : String)
    (l1 l2 : List (String × PyVal)) :
    addKwargs cmd (l1 ++ (k, PyVal.bool false) :: l2) = addKwargs cmd (l1 ++ l2) := by
  unfold addKwargs
  rw [List.foldl_append, List.foldl_append, List.foldl_cons]

theorem addKwargs_nonbool (cmd : List String) (k : String) (v : PyVal)
    (hv : ∀ b, v ≠ PyVal.bool b) :
    addKwargs cmd [(k, v)] = cmd ++ [dashFlag k, pyStr v] := by
  cases v with
  | bool b => exact absurd rfl (hv b)
  | str s => rfl
  | int n => rfl

/-- Claim C10: for each of the six subcommand command-line builders, a
free-form keyword argument whose value is boolean False contributes
nothing (the command line is as if the argument were absent); a boolean
True contributes the bare dash-cased flag; a non-boolean value contributes
the flag followed by the stringified value. -/
theorem kwargs_bool_false_omitted (dumps : List (String × String) → String)
    (config : DbtConfig) (models : Option (List String))
    (select exclude : Option String) (full_refresh : Bool) (k : String)
    (kwargs1 kwargs2 : List (String × PyVal)) :
    runArgs dumps config models select exclude full_refresh
        (kwargs1 ++ (k, PyVal.bool false) :: kwargs2) =
      runArgs dumps config models select exclude full_refresh (kwargs1 ++ kwargs2) ∧
    testArgs dumps config models select (kwargs1 ++ (k, PyVal.bool false) :: kwargs2) =
      testArgs dumps config models select (kwargs1 ++ kwargs2) ∧
    buildArgs dumps config select exclude full_refresh
        (kwargs1 ++ (k, PyVal.bool false) :: kwargs2) =
      buildArgs dumps config select exclude full_refresh (kwargs1 ++ kwargs2) ∧
    compileArgs dumps config models select (kwargs1 ++ (k, PyVal.bool false) :: kwargs2) =
      compileArgs dumps config models select (kwargs1 ++ kwargs2) ∧
    seedArgs dumps config select full_refresh
        (kwargs1 ++ (k, PyVal.bool false) :: kwargs2) =
      seedArgs dumps config select full_refresh (kwargs1 ++ kwargs2) ∧
    snapshotArgs dumps config select (kwargs1 ++ (k, PyVal.bool false) :: kwargs2) =
      snapshotArgs dumps config select (kwargs1 ++ kwargs2) ∧
    (∀ cmd : List String, addKwargs cmd [(k, PyVal.bool true)] = cmd ++ [dashFlag k]) ∧
    (∀ (cmd : List String) (v : PyVal), (∀ b, v ≠ PyVal.bool b) →
      addKwargs cmd [(k, v)] = cmd ++ [dashFlag k, pyStr v]) := by
  refine ⟨?_, ?_, ?_, ?_, ?_, ?_, fun cmd => rfl,
    fun cmd v hv => addKwargs_nonbool cmd k v hv⟩
  · unfold runArgs
    dsimp only
    exact addKwargs_false_mid _ _ _ _
  · unfold testArgs
    dsimp only
    exact addKwargs_false_mid _ _ _ _
  · unfold buildArgs
    dsimp only
    exact addKwargs_false_mid _ _ _ _
  · unfold compileArgs
    dsimp only
    exact addKwargs_false_mid _ _ _ _
  · unfold seedArgs
    dsimp only
    exact addKwargs_false_mid _ _ _ _
  · unfold snapshotArgs
    dsimp only
    exact addKwargs_false_mid _ _ _ _

/-- Witness for C10 at concrete inputs: a False-valued keyword argument in
the middle of the kwargs of every subcommand, plus the True and non-boolean
clauses applied at a concrete command prefix. -/
theorem kwargs_bool_false_omitted_witness :
    runArgs (fun _ => "JSON") ⟨"/w", "/p", "dev", []⟩ none none none false
        ([] ++ ("fail_fast", PyVal.bool false) :: [("threads", PyVal.int 4)]) =
      runArgs (fun _ => "JSON") ⟨"/w", "/p", "dev", []⟩ none none none false
        ([] ++ [("threads", PyVal.int 4)]) ∧
    testArgs (fun _ => "JSON") ⟨"/w", "/p", "dev", []⟩ none none
        ([] ++ ("fail_fast", PyVal.bool false) :: [("threads", PyVal.int 4)]) =
      testArgs (fun _ => "JSON") ⟨"/w", "/p", "dev", []⟩ none none
        ([] ++ [("threads", PyVal.int 4)]) ∧
    buildArgs (fun _ => "JSON") ⟨"/w", "/p", "dev", []⟩ none none false
        ([] ++ ("fail_fast", PyVal.bool false) :: [("threads", PyVal.int 4)]) =
      buildArgs (fun _ => "JSON") ⟨"/w", "/p", "dev", []⟩ none none false
        ([] ++ [("threads", PyVal.int 4)]) ∧
    compileArgs (fun _ => "JSON") ⟨"/w", "/p", "dev", []⟩ none none
        ([] ++ ("fail_fast", PyVal.bool false) :: [("threads", PyVal.int 4)]) =
      compileArgs (fun _ => "JSON") ⟨"/w", "/p", "dev", []⟩ none none
        ([] ++ [("threads", PyVal.int 4)]) ∧
    seedArgs (fun _ => "JSON") ⟨"/w", "/p", "dev", []⟩ none false
        ([] ++ ("fail_fast", PyVal.bool false) :: [("threads", PyVal.int 4)]) =
      seedArgs (fun _ => "JSON") ⟨"/w", "/p", "dev", []⟩ none false
        ([] ++ [("threads", PyVal.int 4)]) ∧
    snapshotArgs (fun _ => "JSON") ⟨"/w", "/p", "dev", []⟩ none
        ([] ++ ("fail_fast", PyVal.bool false) :: [("threads", PyVal.int 4)]) =
      snapshotArgs (fun _ => "JSON") ⟨"/w", "/p", "dev", []⟩ none
        ([] ++ [("threads", PyVal.int 4)]) ∧
    addKwargs ["dbt"] [("fail_fast", PyVal.bool true)] = ["dbt"] ++ [dashFlag "fail_fast"] ∧
    addKwargs ["dbt"] [("fail_fast", PyVal.int 4)] =
      ["dbt"] ++ [dashFlag "fail_fast", pyStr (PyVal.int 4)] := by
  have h := kwargs_bool_false_omitted (fun _ => "JSON") ⟨"/w", "/p", "dev", []⟩
    none none none false "fail_fast" [] [("threads", PyVal.int 4)]
  exact ⟨h.1, h.2.1, h.2.2.1, h.2.2.2.1, h.2.2.2.2.1, h.2.2.2.2.2.1,
    h.2.2.2.2.2.2.1 ["dbt"],
    h.2.2.2.2.2.2.2 ["dbt"] (PyVal.int 4) (fun b => by simp)⟩

end Fdr
